import Mathlib

/-!
Shallow embedding of the weather-lookup UI in src/index.tsx.

JavaScript strings are modelled as Lean `String`s and char-wise operations
(`toLowerCase`, `toUpperCase`, `includes`) are defined on the underlying
character list.  `parseInt(s, 10)` is modelled as an `Option Int` parser
(`none` plays the role of `NaN`).  The React component state of `App` is
modelled as an explicit record, and the `getWeather` handler is split into
the phase that runs before the external call (`beginSubmit`, covering the
validation guards and the state resets) and the phase that consumes the
call outcome (`completeSubmit`, covering JSON parsing, the error/city
branching and the `finally` block).
-/

/-- Model of JavaScript `String.prototype.includes` on character lists:
true when `need` occurs contiguously inside the list. -/
def listIncludes (need : List Char) : List Char → Bool
  | [] => need.isEmpty
  | c :: rest => need.isPrefixOf (c :: rest) || listIncludes need rest

/-- Model of JavaScript `s.includes(sub)`. -/
def includes (s sub : String) : Bool :=
  listIncludes sub.data s.data

/-- Model of JavaScript `s.toLowerCase()` (char-wise lowering). -/
def toLowerCase (s : String) : String :=
  ⟨s.data.map Char.toLower⟩

/-- Model of JavaScript `s.toUpperCase()` (char-wise raising). -/
def toUpperCase (s : String) : String :=
  ⟨s.data.map Char.toUpper⟩

/-- Model of JavaScript `parseInt(s, 10)`: skip leading whitespace, read an
optional sign, then the longest run of decimal digits; `none` models `NaN`
when no digit is found. -/
def parseIntJS (s : String) : Option Int :=
  let trimmed := s.data.dropWhile Char.isWhitespace
  let signed : Bool × List Char :=
    match trimmed with
    | '-' :: rest => (true, rest)
    | '+' :: rest => (false, rest)
    | cs => (false, cs)
  let ds := signed.2.takeWhile Char.isDigit
  if ds.isEmpty then none
  else
    let mag : Nat := ds.foldl (fun acc c => acc * 10 + (c.toNat - 48)) 0
    some (if signed.1 then -(mag : Int) else (mag : Int))

/-- Embedding of `getWeatherIcon` from src/index.tsx lines 44-63. -/
def getWeatherIcon (condition : String) : String :=
  let lowerCaseCondition := toLowerCase condition
  if includes lowerCaseCondition "sun" || includes lowerCaseCondition "clear" then
    "☀️"
  else if includes lowerCaseCondition "cloud" && includes lowerCaseCondition "partly" then
    "⛅️"
  else if includes lowerCaseCondition "cloud" then
    "☁️"
  else if includes lowerCaseCondition "rain" || includes lowerCaseCondition "drizzle" then
    "🌧️"
  else if includes lowerCaseCondition "thunder" || includes lowerCaseCondition "storm" then
    "⛈️"
  else if includes lowerCaseCondition "snow" then
    "❄️"
  else if includes lowerCaseCondition "mist" || includes lowerCaseCondition "fog" then
    "🌫️"
  else
    "🌡️"

/-- Embedding of `getBeaufortDescription` from src/index.tsx lines 66-81. -/
def getBeaufortDescription (speedStr : String) : String :=
  match parseIntJS speedStr with
  | none => speedStr
  | some speed =>
    if speed ≤ 1 then "Calm"
    else if speed ≤ 3 then "Light air"
    else if speed ≤ 7 then "Light breeze"
    else if speed ≤ 12 then "Gentle breeze"
    else if speed ≤ 18 then "Moderate breeze"
    else if speed ≤ 24 then "Fresh breeze"
    else if speed ≤ 31 then "Strong breeze"
    else if speed ≤ 38 then "High wind"
    else if speed ≤ 46 then "Gale"
    else if speed ≤ 54 then "Strong gale"
    else "Storm"

/-- The ten threshold/label pairs of the claimed Beaufort band table, written
from the wording of the spec; values above the last threshold take the
terminal label, so together these describe eleven ordered bands. -/
def beaufortBands : List (Int × String) :=
  [(1, "Calm"), (3, "Light air"), (7, "Light breeze"), (12, "Gentle breeze"),
   (18, "Moderate breeze"), (24, "Fresh breeze"), (31, "Strong breeze"),
   (38, "High wind"), (46, "Gale"), (54, "Strong gale")]

/-- Lookup of the first band whose inclusive upper threshold admits `n`; the
terminal label applies past the end of the table.  Written from the wording
of the spec, to be compared with `getBeaufortDescription`. -/
def lookupBand (n : Int) : List (Int × String) → String
  | [] => "Storm"
  | (t, label) :: rest => if n ≤ t then label else lookupBand n rest

/-- Embedding of `getWindDirectionIcon` from src/index.tsx lines 84-99. -/
def getWindDirectionIcon (direction : String) : String :=
  let d := toUpperCase direction
  if includes d "N" then
    if includes d "E" then "↗"
    else if includes d "W" then "↖"
    else "↑"
  else if includes d "S" then
    if includes d "E" then "↘"
    else if includes d "W" then "↙"
    else "↓"
  else if includes d "E" then "→"
  else if includes d "W" then "←"
  else "↔️"

/-- Embedding of the `HourlyForecast` record of src/index.tsx; all of its
fields are required strings in the declared response schema. -/
structure HourlyForecast where
  time : String
  temperature : String
  temperatureUnit : String
  conditions : String
  precipitationProbability : String
  precipitationType : String
deriving DecidableEq

/-- Embedding of the `DailyForecast` record of src/index.tsx; all of its
fields are required strings in the declared response schema. -/
structure DailyForecast where
  day : String
  highTemperature : String
  lowTemperature : String
  temperatureUnit : String
  conditions : String
  precipitationProbability : String
  precipitationType : String
deriving DecidableEq

/-- Embedding of the `WeatherData` record of src/index.tsx.  No top-level
field of the declared response schema is marked required, so a parsed
payload may omit any of them; absent string fields are `none`.  JavaScript
truthiness of a field (`weatherData.error`, `weatherData.city`) is `false`
exactly when the field is absent or the empty string, see `truthyOpt`. -/
structure WeatherData where
  city : Option String
  temperature : Option String
  temperatureUnit : Option String
  conditions : Option String
  windSpeed : Option String
  windDirection : Option String
  precipitationProbability : Option String
  precipitationType : Option String
  hourlyForecast : List HourlyForecast
  dailyForecast : List DailyForecast
  error : Option String
deriving DecidableEq

/-- JavaScript truthiness of an optional string field: absent and the empty
string are falsy, every other string is truthy. -/
def truthyOpt : Option String → Bool
  | none => false
  | some e => decide (e ≠ "")

/-- The component state of `App` in src/index.tsx lines 136-140: the two
form fields, the stored weather result, the loading flag and the error
message (`none` models `null`). -/
structure ControllerState where
  city : String
  selectedDate : String
  weather : Option WeatherData
  loading : Bool
  error : Option String
deriving DecidableEq

/-- Outcome of `JSON.parse(response.text)` in src/index.tsx lines 214-220:
either the text is not JSON (the parse throws) or it yields a
`WeatherData`-shaped value. -/
inductive ParseResult where
  | malformed
  | parsed (w : WeatherData)
deriving DecidableEq

/-- Outcome of the awaited external call in src/index.tsx: the call rejects
with an `Error` carrying a message, rejects with a non-`Error` value, or
resolves with a response body to be parsed. -/
inductive ApiOutcome where
  | throwsError (msg : String)
  | throwsOther
  | responds (r : ParseResult)
deriving DecidableEq

/-- The message thrown when `JSON.parse` fails, src/index.tsx line 219. -/
def malformedResponseMsg : String :=
  "The weather service returned an invalid response. Please try again."

/-- The fallback message for a non-`Error` rejection, src/index.tsx line 234. -/
def genericApiErrorMsg : String :=
  "An unexpected API error occurred. Please try again later."

/-- The constructed message for a payload without a resolvable city,
src/index.tsx line 225; it embeds the city the user requested. -/
def notFoundMessage (city : String) : String :=
  "Could not find weather data for \"" ++ city ++ "\". Please check the spelling."

/-- Result of running the part of `getWeather` before the external call:
either the handler returned during validation (no call was issued) or it
reached the `try` block and issued the call, leaving the given in-flight
state. -/
inductive SubmitResult where
  | rejected (s : ControllerState)
  | issued (s : ControllerState)
deriving DecidableEq

/-- The state recorded in a `SubmitResult`. -/
def SubmitResult.state : SubmitResult → ControllerState
  | .rejected s => s
  | .issued s => s

/-- Whether the external call was issued. -/
def SubmitResult.callIssued : SubmitResult → Bool
  | .rejected _ => false
  | .issued _ => true

/-- Embedding of `getWeather` up to the external call, src/index.tsx lines
142-156: the two validation guards (`!city`, `!selectedDate`) each set an
error message and return; past them the handler sets `loading`, clears the
stored weather and the error, and issues the call. -/
def beginSubmit (s : ControllerState) : SubmitResult :=
  if s.city = "" then
    .rejected { s with error := some "Please enter a city name." }
  else if s.selectedDate = "" then
    .rejected { s with error := some "Please select a date." }
  else
    .issued { s with loading := true, weather := none, error := none }

/-- Embedding of the rest of `getWeather`, src/index.tsx lines 214-238,
applied to the in-flight state: a rejected call or a failed `JSON.parse`
lands in the `catch` block and sets the corresponding message; a parsed
payload with a truthy `error` field sets that error; otherwise a falsy
`city` sets the constructed not-found message; otherwise the payload is
stored as the weather result.  The `finally` block clears `loading`. -/
def completeSubmit (s : ControllerState) (outcome : ApiOutcome) : ControllerState :=
  let afterTry :=
    match outcome with
    | .throwsError msg => { s with error := some msg }
    | .throwsOther => { s with error := some genericApiErrorMsg }
    | .responds .malformed => { s with error := some malformedResponseMsg }
    | .responds (.parsed w) =>
      if truthyOpt w.error then { s with error := w.error }
      else if truthyOpt w.city = false then
        { s with error := some (notFoundMessage s.city) }
      else { s with weather := some w }
  { afterTry with loading := false }

/-- One whole submission: validation, then, when the call was issued, the
handling of its outcome. -/
def runSubmission (s : ControllerState) (outcome : ApiOutcome) : ControllerState :=
  match beginSubmit s with
  | .rejected s' => s'
  | .issued s' => completeSubmit s' outcome

/-- The render condition of the weather result, src/index.tsx line 271:
the block is rendered exactly when not loading and a result is stored. -/
def resultRendered (s : ControllerState) : Bool :=
  !s.loading && s.weather.isSome

/-- The render condition of the error paragraph, src/index.tsx line 269:
rendered exactly when the error message is truthy. -/
def errorDisplayed (s : ControllerState) : Bool :=
  truthyOpt s.error

/-- A typical payload for concrete runs, with the given city and error
fields; the remaining fields are ordinary strings. -/
def sampleWeather (cityField errorField : Option String) : WeatherData :=
  { city := cityField, temperature := some "21",
    temperatureUnit := some "C", conditions := some "Sunny",
    windSpeed := some "10 mph", windDirection := some "NW",
    precipitationProbability := some "10%", precipitationType := some "None",
    hourlyForecast := [], dailyForecast := [], error := errorField }

/-- An idle controller state with the given form fields. -/
def sampleIdleState (c d : String) : ControllerState :=
  { city := c, selectedDate := d, weather := none, loading := false,
    error := none }

/-- Appending strings appends their character lists. -/
theorem string_data_append (a b : String) : (a ++ b).data = a.data ++ b.data := by
  cases a; cases b; rfl

/-- The constructed not-found message is never the empty string, whatever
city it embeds. -/
theorem notFoundMessage_ne_empty (c : String) : notFoundMessage c ≠ "" := by
  intro h
  have h2 : (notFoundMessage c).data = [] := by rw [h]
  unfold notFoundMessage at h2
  rw [string_data_append, string_data_append] at h2
  have h3 := List.append_eq_nil.mp h2
  have h4 := List.append_eq_nil.mp h3.1
  exact absurd h4.1 (by decide)

/-- An absent field is falsy. -/
theorem truthyOpt_none : truthyOpt none = false := rfl

/-- A present field is truthy exactly when it is not the empty string. -/
theorem truthyOpt_some (e : String) : truthyOpt (some e) = decide (e ≠ "") := rfl

/-- The boolean containment test agrees with the contiguous-sublist
relation on character lists. -/
theorem listIncludes_eq_true_iff (need hay : List Char) :
    listIncludes need hay = true ↔ need <:+: hay := by
  induction hay with
  | nil => simp [listIncludes, List.infix_nil]
  | cons c rest ih => simp [listIncludes, ih, List.infix_cons_iff]

/-- C2: Beaufort classification parses a leading integer from the
wind-speed string; an unparseable string is returned unchanged; a parsed
integer is mapped through the eleven ordered bands given by the inclusive
upper thresholds 1, 3, 7, 12, 18, 24, 31, 38, 46, 54 with labels Calm
through Strong gale, and every value above 54 maps to Storm.  The strings
0, 5, 60 map to Calm, Light breeze and Storm, while N/A comes back
unchanged. -/
theorem c2_beaufort_classification :
    (∀ s : String, getBeaufortDescription s =
      (match parseIntJS s with
       | none => s
       | some n => lookupBand n beaufortBands)) ∧
    (∀ s : String, ∀ n : Int, parseIntJS s = some n → 54 < n →
      getBeaufortDescription s = "Storm") ∧
    getBeaufortDescription "0" = "Calm" ∧
    getBeaufortDescription "5" = "Light breeze" ∧
    getBeaufortDescription "60" = "Storm" ∧
    getBeaufortDescription "N/A" = "N/A" := by
  refine ⟨?_, ?_, by decide, by decide, by decide, by decide⟩
  · intro s
    unfold getBeaufortDescription
    cases h : parseIntJS s with
    | none => simp
    | some n => simp [lookupBand, beaufortBands]
  · intro s n h hn
    unfold getBeaufortDescription
    rw [h]
    simp only
    repeat rw [if_neg (by omega)]

/-- C2 witness: the conjunct with hypotheses instantiated at the concrete
input 60, whose parsed value 60 exceeds the last threshold 54. -/
theorem c2_beaufort_classification_witness :
    getBeaufortDescription "60" = "Storm" :=
  c2_beaufort_classification.2.1 "60" 60 (by decide) (by decide)

/-- C3: icon selection lower-cases the condition string and tests substring
membership with the priority sun/clear, then partly with cloud, then cloud,
then rain/drizzle, thunder/storm, snow, mist/fog, the thermometer glyph
otherwise.  Any string containing an occurrence of sun or clear in any
letter case yields the sun glyph; a string containing partly and cloud and
no earlier-priority substring yields the partly-cloudy glyph, not the
plain-cloud glyph; a string containing none of the keywords yields the
thermometer glyph. -/
theorem c3_icon_selection :
    (∀ s t : String, listIncludes t.data s.data = true →
      toLowerCase t = "sun" ∨ toLowerCase t = "clear" →
      getWeatherIcon s = "☀️") ∧
    (∀ s : String,
      includes (toLowerCase s) "partly" = true →
      includes (toLowerCase s) "cloud" = true →
      includes (toLowerCase s) "sun" = false →
      includes (toLowerCase s) "clear" = false →
      getWeatherIcon s = "⛅️" ∧ getWeatherIcon s ≠ "☁️") ∧
    (∀ s : String,
      includes (toLowerCase s) "sun" = false →
      includes (toLowerCase s) "clear" = false →
      includes (toLowerCase s) "cloud" = false →
      includes (toLowerCase s) "rain" = false →
      includes (toLowerCase s) "drizzle" = false →
      includes (toLowerCase s) "thunder" = false →
      includes (toLowerCase s) "storm" = false →
      includes (toLowerCase s) "snow" = false →
      includes (toLowerCase s) "mist" = false →
      includes (toLowerCase s) "fog" = false →
      getWeatherIcon s = "🌡️") := by
  refine ⟨?_, ?_, ?_⟩
  · intro s t hinc hlow
    have hinf : t.data <:+: s.data := (listIncludes_eq_true_iff _ _).mp hinc
    have hmap : t.data.map Char.toLower <:+: s.data.map Char.toLower :=
      List.IsInfix.map Char.toLower hinf
    cases hlow with
    | inl h =>
      have hdata : t.data.map Char.toLower = "sun".data := congrArg String.data h
      have hsun : includes (toLowerCase s) "sun" = true :=
        (listIncludes_eq_true_iff _ _).mpr (hdata ▸ hmap)
      simp [getWeatherIcon, hsun]
    | inr h =>
      have hdata : t.data.map Char.toLower = "clear".data := congrArg String.data h
      have hclear : includes (toLowerCase s) "clear" = true :=
        (listIncludes_eq_true_iff _ _).mpr (hdata ▸ hmap)
      simp [getWeatherIcon, hclear]
  · intro s h1 h2 h3 h4
    simp [getWeatherIcon, h1, h2, h3, h4]
  · intro s h1 h2 h3 h4 h5 h6 h7 h8 h9 h10
    simp [getWeatherIcon, h1, h2, h3, h4, h5, h6, h7, h8, h9, h10]

/-- C3 witness: the three conjuncts instantiated at concrete inputs, with a
mixed-case occurrence of sun, a partly-cloudy condition, and an unmatched
condition. -/
theorem c3_icon_selection_witness :
    getWeatherIcon "TSUNami warning" = "☀️" ∧
    getWeatherIcon "Partly Cloudy" = "⛅️" ∧
    getWeatherIcon "hot" = "🌡️" :=
  ⟨c3_icon_selection.1 "TSUNami warning" "SUN" (by decide) (Or.inl (by decide)),
   (c3_icon_selection.2.1 "Partly Cloudy" (by decide) (by decide) (by decide)
     (by decide)).1,
   c3_icon_selection.2.2 "hot" (by decide) (by decide) (by decide) (by decide)
     (by decide) (by decide) (by decide) (by decide) (by decide) (by decide)⟩

/-- C4: direction-arrow selection upper-cases the direction string and
selects among the eight arrow glyphs by presence of the letters N or S
combined with E or W, with N and S checked before a pure E or W, and
returns the bidirectional default glyph when none of the four letters is
present.  NE yields the north-east glyph, SW the south-west glyph, Q the
default glyph. -/
theorem c4_wind_direction_icon :
    getWindDirectionIcon "NE" = "↗" ∧
    getWindDirectionIcon "SW" = "↙" ∧
    getWindDirectionIcon "Q" = "↔️" ∧
    (∀ d : String,
      includes (toUpperCase d) "N" = false →
      includes (toUpperCase d) "S" = false →
      includes (toUpperCase d) "E" = false →
      includes (toUpperCase d) "W" = false →
      getWindDirectionIcon d = "↔️") ∧
    (∀ d : String,
      includes (toUpperCase d) "N" = true →
      includes (toUpperCase d) "E" = true →
      getWindDirectionIcon d = "↗") ∧
    (∀ d : String,
      includes (toUpperCase d) "N" = false →
      includes (toUpperCase d) "S" = true →
      includes (toUpperCase d) "E" = false →
      includes (toUpperCase d) "W" = true →
      getWindDirectionIcon d = "↙") := by
  refine ⟨by decide, by decide, by decide, ?_, ?_, ?_⟩
  · intro d h1 h2 h3 h4
    simp [getWindDirectionIcon, h1, h2, h3, h4]
  · intro d h1 h2
    simp [getWindDirectionIcon, h1, h2]
  · intro d h1 h2 h3 h4
    simp [getWindDirectionIcon, h1, h2, h3, h4]

/-- C4 witness: the three conjuncts with hypotheses instantiated at an
empty string, a spelled-out north-east word, and a string whose only
recognized letters are S and W. -/
theorem c4_wind_direction_icon_witness :
    getWindDirectionIcon "" = "↔️" ∧
    getWindDirectionIcon "NORTH-EAST" = "↗" ∧
    getWindDirectionIcon "sw gusts" = "↙" :=
  ⟨c4_wind_direction_icon.2.2.2.1 "" (by decide) (by decide) (by decide) (by decide),
   c4_wind_direction_icon.2.2.2.2.1 "NORTH-EAST" (by decide) (by decide),
   c4_wind_direction_icon.2.2.2.2.2 "sw gusts" (by decide) (by decide) (by decide)
     (by decide)⟩

/-- C9: any direction string whose upper-cased form contains S and E but
not N selects the south-east arrow; in particular the word West, whose
letters include W, E and S, maps to the south-east arrow and not to the
west arrow, because selection is by letter presence. -/
theorem c9_letter_presence_southeast :
    (∀ d : String,
      includes (toUpperCase d) "S" = true →
      includes (toUpperCase d) "E" = true →
      includes (toUpperCase d) "N" = false →
      getWindDirectionIcon d = "↘") ∧
    getWindDirectionIcon "West" = "↘" ∧
    getWindDirectionIcon "West" ≠ "←" := by
  refine ⟨?_, by decide, by decide⟩
  intro d h1 h2 h3
  simp [getWindDirectionIcon, h1, h2, h3]

/-- C9 witness: the quantified conjunct instantiated at the word West. -/
theorem c9_letter_presence_southeast_witness :
    getWindDirectionIcon "West" = "↘" :=
  c9_letter_presence_southeast.1 "West" (by decide) (by decide) (by decide)

/-- C1 counterexample: a parsed payload whose error field is present but
holds the empty string, together with a city, is handled as a success.
The error field is falsy in JavaScript, so the controller stores the
payload as the weather result, displays it, and shows no error, against
the claim that presence of the error field alone is authoritative. -/
theorem c1_error_field_counterexample :
    (sampleWeather (some "Paris") (some "")).error.isSome = true ∧
    (runSubmission (sampleIdleState "Paris" "2026-03-01")
        (ApiOutcome.responds (ParseResult.parsed
          (sampleWeather (some "Paris") (some ""))))).weather
      = some (sampleWeather (some "Paris") (some "")) ∧
    (runSubmission (sampleIdleState "Paris" "2026-03-01")
        (ApiOutcome.responds (ParseResult.parsed
          (sampleWeather (some "Paris") (some ""))))).error = none ∧
    resultRendered (runSubmission (sampleIdleState "Paris" "2026-03-01")
        (ApiOutcome.responds (ParseResult.parsed
          (sampleWeather (some "Paris") (some ""))))) = true ∧
    errorDisplayed (runSubmission (sampleIdleState "Paris" "2026-03-01")
        (ApiOutcome.responds (ParseResult.parsed
          (sampleWeather (some "Paris") (some ""))))) = false := by
  decide

/-- C1 amended: for every parsed payload whose error field is present with
a non-empty string, the controller treats that error as authoritative
regardless of all other fields: it enters the error state showing exactly
that string and renders no weather result, also when a city is present. -/
theorem c1_nonempty_error_authoritative (s : ControllerState) (w : WeatherData)
    (e : String) (hc : s.city ≠ "") (hd : s.selectedDate ≠ "")
    (he : w.error = some e) (hne : e ≠ "") :
    (runSubmission s (ApiOutcome.responds (ParseResult.parsed w))).error = some e ∧
    (runSubmission s (ApiOutcome.responds (ParseResult.parsed w))).weather = none ∧
    resultRendered (runSubmission s (ApiOutcome.responds (ParseResult.parsed w)))
      = false ∧
    errorDisplayed (runSubmission s (ApiOutcome.responds (ParseResult.parsed w)))
      = true := by
  simp [runSubmission, beginSubmit, hc, hd, completeSubmit, he, truthyOpt, hne,
    resultRendered, errorDisplayed]

/-- C1 witness: the amended claim instantiated at a payload carrying both
a non-empty error message and a city. -/
theorem c1_nonempty_error_authoritative_witness :
    (runSubmission (sampleIdleState "Paris" "2026-03-01")
        (ApiOutcome.responds (ParseResult.parsed
          (sampleWeather (some "Paris") (some "City not found."))))).error
      = some "City not found." ∧
    (runSubmission (sampleIdleState "Paris" "2026-03-01")
        (ApiOutcome.responds (ParseResult.parsed
          (sampleWeather (some "Paris") (some "City not found."))))).weather
      = none ∧
    resultRendered (runSubmission (sampleIdleState "Paris" "2026-03-01")
        (ApiOutcome.responds (ParseResult.parsed
          (sampleWeather (some "Paris") (some "City not found."))))) = false ∧
    errorDisplayed (runSubmission (sampleIdleState "Paris" "2026-03-01")
        (ApiOutcome.responds (ParseResult.parsed
          (sampleWeather (some "Paris") (some "City not found."))))) = true :=
  c1_nonempty_error_authoritative (sampleIdleState "Paris" "2026-03-01")
    (sampleWeather (some "Paris") (some "City not found.")) "City not found."
    (by decide) (by decide) rfl (by decide)

/-- C5: a submission with an empty city or an empty date issues no external
call, shows a validation message, and does not enter the loading state. -/
theorem c5_validation_blocks_call (s : ControllerState)
    (hv : s.city = "" ∨ s.selectedDate = "") (hl : s.loading = false) :
    (beginSubmit s).callIssued = false ∧
    ((beginSubmit s).state.error = some "Please enter a city name." ∨
      (beginSubmit s).state.error = some "Please select a date.") ∧
    errorDisplayed (beginSubmit s).state = true ∧
    (beginSubmit s).state.loading = false := by
  by_cases hc : s.city = ""
  · simp [beginSubmit, hc, SubmitResult.callIssued, SubmitResult.state,
      errorDisplayed, truthyOpt, hl]
  · have hd : s.selectedDate = "" := hv.resolve_left hc
    simp [beginSubmit, hc, hd, SubmitResult.callIssued, SubmitResult.state,
      errorDisplayed, truthyOpt, hl]

/-- C5 witness: the claim instantiated at an idle state with an empty city
and a non-empty date. -/
theorem c5_validation_blocks_call_witness :
    (beginSubmit (sampleIdleState "" "2026-03-01")).callIssued = false ∧
    ((beginSubmit (sampleIdleState "" "2026-03-01")).state.error
        = some "Please enter a city name." ∨
      (beginSubmit (sampleIdleState "" "2026-03-01")).state.error
        = some "Please select a date.") ∧
    errorDisplayed (beginSubmit (sampleIdleState "" "2026-03-01")).state = true ∧
    (beginSubmit (sampleIdleState "" "2026-03-01")).state.loading = false :=
  c5_validation_blocks_call (sampleIdleState "" "2026-03-01") (Or.inl rfl) rfl

/-- C6: a response whose body fails to parse as JSON puts the controller in
the error state with the dedicated invalid-response message, which differs
from the generic service-error message, and no weather result is
rendered. -/
theorem c6_malformed_response (s : ControllerState)
    (hc : s.city ≠ "") (hd : s.selectedDate ≠ "") :
    (runSubmission s (ApiOutcome.responds ParseResult.malformed)).error
      = some malformedResponseMsg ∧
    malformedResponseMsg ≠ genericApiErrorMsg ∧
    (runSubmission s (ApiOutcome.responds ParseResult.malformed)).weather = none ∧
    resultRendered (runSubmission s (ApiOutcome.responds ParseResult.malformed))
      = false ∧
    errorDisplayed (runSubmission s (ApiOutcome.responds ParseResult.malformed))
      = true := by
  refine ⟨?_, by decide, ?_, ?_, ?_⟩ <;>
    simp [runSubmission, beginSubmit, hc, hd, completeSubmit, resultRendered,
      errorDisplayed, truthyOpt, malformedResponseMsg]

/-- C6 witness: the claim instantiated at a concrete valid submission. -/
theorem c6_malformed_response_witness :
    (runSubmission (sampleIdleState "Paris" "2026-03-01")
        (ApiOutcome.responds ParseResult.malformed)).error
      = some malformedResponseMsg ∧
    malformedResponseMsg ≠ genericApiErrorMsg ∧
    (runSubmission (sampleIdleState "Paris" "2026-03-01")
        (ApiOutcome.responds ParseResult.malformed)).weather = none ∧
    resultRendered (runSubmission (sampleIdleState "Paris" "2026-03-01")
        (ApiOutcome.responds ParseResult.malformed)) = false ∧
    errorDisplayed (runSubmission (sampleIdleState "Paris" "2026-03-01")
        (ApiOutcome.responds ParseResult.malformed)) = true :=
  c6_malformed_response (sampleIdleState "Paris" "2026-03-01") (by decide)
    (by decide)

/-- C7: a submission that passes validation clears the prior weather result
and the prior error message in the very state in which the external call is
issued, so nothing stale is displayed while the request is in flight. -/
theorem c7_reset_before_call (s : ControllerState)
    (hc : s.city ≠ "") (hd : s.selectedDate ≠ "") :
    (beginSubmit s).callIssued = true ∧
    (beginSubmit s).state.weather = none ∧
    (beginSubmit s).state.error = none ∧
    (beginSubmit s).state.loading = true ∧
    resultRendered (beginSubmit s).state = false ∧
    errorDisplayed (beginSubmit s).state = false := by
  simp [beginSubmit, hc, hd, SubmitResult.callIssued, SubmitResult.state,
    resultRendered, errorDisplayed, truthyOpt]

/-- C7 witness: the claim instantiated at a state holding a stale result
and a stale error message. -/
theorem c7_reset_before_call_witness :
    (beginSubmit
        { city := "Paris", selectedDate := "2026-03-01",
          weather := some (sampleWeather (some "Lyon") none), loading := false,
          error := some "old error" }).callIssued = true ∧
    (beginSubmit
        { city := "Paris", selectedDate := "2026-03-01",
          weather := some (sampleWeather (some "Lyon") none), loading := false,
          error := some "old error" }).state.weather = none ∧
    (beginSubmit
        { city := "Paris", selectedDate := "2026-03-01",
          weather := some (sampleWeather (some "Lyon") none), loading := false,
          error := some "old error" }).state.error = none ∧
    (beginSubmit
        { city := "Paris", selectedDate := "2026-03-01",
          weather := some (sampleWeather (some "Lyon") none), loading := false,
          error := some "old error" }).state.loading = true ∧
    resultRendered (beginSubmit
        { city := "Paris", selectedDate := "2026-03-01",
          weather := some (sampleWeather (some "Lyon") none), loading := false,
          error := some "old error" }).state = false ∧
    errorDisplayed (beginSubmit
        { city := "Paris", selectedDate := "2026-03-01",
          weather := some (sampleWeather (some "Lyon") none), loading := false,
          error := some "old error" }).state = false :=
  c7_reset_before_call
    { city := "Paris", selectedDate := "2026-03-01",
      weather := some (sampleWeather (some "Lyon") none), loading := false,
      error := some "old error" } (by decide) (by decide)

/-- C8: a parsed payload with no error field and a falsy city puts the
controller in the error state with the constructed not-found message, which
embeds the city name the user requested, and no weather result is
rendered. -/
theorem c8_city_not_found (s : ControllerState) (w : WeatherData)
    (hc : s.city ≠ "") (hd : s.selectedDate ≠ "")
    (he : w.error = none) (hcity : truthyOpt w.city = false) :
    (runSubmission s (ApiOutcome.responds (ParseResult.parsed w))).error
      = some (notFoundMessage s.city) ∧
    (runSubmission s (ApiOutcome.responds (ParseResult.parsed w))).weather = none ∧
    resultRendered (runSubmission s (ApiOutcome.responds (ParseResult.parsed w)))
      = false ∧
    errorDisplayed (runSubmission s (ApiOutcome.responds (ParseResult.parsed w)))
      = true := by
  have hnf := notFoundMessage_ne_empty s.city
  simp [runSubmission, beginSubmit, hc, hd, completeSubmit, he, hcity,
    truthyOpt_none, truthyOpt_some, resultRendered, errorDisplayed, hnf]

/-- C8 witness: the claim instantiated at a payload that omits both the
error field and the city. -/
theorem c8_city_not_found_witness :
    (runSubmission (sampleIdleState "Atlantis" "2026-03-01")
        (ApiOutcome.responds (ParseResult.parsed (sampleWeather none none)))).error
      = some (notFoundMessage "Atlantis") ∧
    (runSubmission (sampleIdleState "Atlantis" "2026-03-01")
        (ApiOutcome.responds (ParseResult.parsed (sampleWeather none none)))).weather
      = none ∧
    resultRendered (runSubmission (sampleIdleState "Atlantis" "2026-03-01")
        (ApiOutcome.responds (ParseResult.parsed (sampleWeather none none))))
      = false ∧
    errorDisplayed (runSubmission (sampleIdleState "Atlantis" "2026-03-01")
        (ApiOutcome.responds (ParseResult.parsed (sampleWeather none none))))
      = true :=
  c8_city_not_found (sampleIdleState "Atlantis" "2026-03-01")
    (sampleWeather none none) (by decide) (by decide) rfl rfl

/-- C10: a validation failure leaves the stored weather result untouched;
when a previous submission succeeded, its result stays displayed alongside
the new validation message, since the rejecting path only sets the error
message. -/
theorem c10_validation_keeps_result (s : ControllerState) (w : WeatherData)
    (hv : s.city = "" ∨ s.selectedDate = "") (hw : s.weather = some w)
    (hl : s.loading = false) :
    (beginSubmit s).callIssued = false ∧
    (beginSubmit s).state.weather = some w ∧
    resultRendered (beginSubmit s).state = true ∧
    errorDisplayed (beginSubmit s).state = true := by
  by_cases hc : s.city = ""
  · simp [beginSubmit, hc, SubmitResult.callIssued, SubmitResult.state,
      resultRendered, errorDisplayed, truthyOpt, hw, hl]
  · have hd : s.selectedDate = "" := hv.resolve_left hc
    simp [beginSubmit, hc, hd, SubmitResult.callIssued, SubmitResult.state,
      resultRendered, errorDisplayed, truthyOpt, hw, hl]

/-- C10 witness: the claim instantiated at a state holding a previous
result while the city field has been emptied. -/
theorem c10_validation_keeps_result_witness :
    (beginSubmit
        { city := "", selectedDate := "2026-03-01",
          weather := some (sampleWeather (some "Paris") none), loading := false,
          error := none }).callIssued = false ∧
    (beginSubmit
        { city := "", selectedDate := "2026-03-01",
          weather := some (sampleWeather (some "Paris") none), loading := false,
          error := none }).state.weather = some (sampleWeather (some "Paris") none) ∧
    resultRendered (beginSubmit
        { city := "", selectedDate := "2026-03-01",
          weather := some (sampleWeather (some "Paris") none), loading := false,
          error := none }).state = true ∧
    errorDisplayed (beginSubmit
        { city := "", selectedDate := "2026-03-01",
          weather := some (sampleWeather (some "Paris") none), loading := false,
          error := none }).state = true :=
  c10_validation_keeps_result
    { city := "", selectedDate := "2026-03-01",
      weather := some (sampleWeather (some "Paris") none), loading := false,
      error := none } (sampleWeather (some "Paris") none) (Or.inl rfl) rfl rfl
